import Mathlib

/-!
Shallow embedding of the iwent_control_gateway sources (src/data.rs, src/can.rs,
src/main.rs, src/modbus_server.rs, src/modbus_client.rs) and proofs about them.

Machine integers are modelled as `Nat` with explicit bounds where overflow or
narrowing matters (`u8` values are `≤ 255`, `u16` arithmetic is taken `% 65536`).
Stateful Rust code (`&mut self` methods, task loops) is modelled by explicit
state passing: a method returns the `Except` outcome together with the state it
leaves behind, so that "no partial update on the error path" is expressible.
-/

namespace Gateway

/-- Decidable equality for `Except`, so that concrete outcomes can be checked
by `decide`. -/
instance instDecEqExcept {ε α : Type} [DecidableEq ε] [DecidableEq α] :
    DecidableEq (Except ε α) := fun a b =>
  match a, b with
  | .ok x, .ok y =>
      if h : x = y then .isTrue (by rw [h])
      else .isFalse (fun hc => h (Except.ok.inj hc))
  | .error x, .error y =>
      if h : x = y then .isTrue (by rw [h])
      else .isFalse (fun hc => h (Except.error.inj hc))
  | .ok _, .error _ => .isFalse (fun hc => Except.noConfusion hc)
  | .error _, .ok _ => .isFalse (fun hc => Except.noConfusion hc)

/-- Modbus exception codes used by the sources (tokio_modbus ExceptionCode). -/
inductive ExceptionCode where
  | IllegalFunction
  | IllegalDataAddress
  | IllegalDataValue
  | ServerDeviceFailure
  deriving DecidableEq, Repr

/-- Application errors from src/error.rs that the pure core can produce. -/
inductive AppError where
  | InvalidCanDataLength (can_id expected actual : Nat)
  | UnsupportedCanId (can_id : Nat)
  | LockPoisoned
  deriving DecidableEq, Repr

/-- System commands from src/main.rs. -/
inductive SystemCommand where
  | Off
  | On
  | Quit
  deriving DecidableEq, Repr

-- Register map constants from src/data.rs.
def REG_MIN_CELL_VOLTAGE : Nat := 1
def REG_MAX_CELL_VOLTAGE : Nat := 2
def REG_MIN_TEMPERATURE : Nat := 3
def REG_MAX_TEMPERATURE : Nat := 4
def REG_BMS_INFO : Nat := 8
def REG_SOC : Nat := 5
def REG_CURRENT : Nat := 6
def REG_TOTAL_VOLTAGE : Nat := 7
def REG_WARNING_1 : Nat := 9
def REG_WARNING_2 : Nat := 10
def REG_ERROR_1 : Nat := 11
def REG_ERROR_2 : Nat := 12
def REG_ON : Nat := 21
def REG_QUIT : Nat := 22

/-- The BmsData struct of src/data.rs.  The `control_frozen` field is the one
used by src/main.rs (`reset_control_frozen`, `input_flag_manager_task` and the
initializers in `main` all read and write `data.control_frozen`); `derive
Default` gives `None` for every field. 8-bit fields hold values `≤ 255` and
16-bit fields values `< 65536`; the operations below only ever store such
values. -/
structure BmsData where
  min_cell_voltage : Option Nat := none
  max_cell_voltage : Option Nat := none
  min_temperature : Option Nat := none
  max_temperature : Option Nat := none
  info : Option Nat := none
  soc : Option Nat := none
  current : Option Nat := none
  total_voltage : Option Nat := none
  warning1 : Option Nat := none
  warning2 : Option Nat := none
  error1 : Option Nat := none
  error2 : Option Nat := none
  «on» : Option Nat := none
  quit : Option Nat := none
  control_frozen : Option Bool := none
  deriving DecidableEq, Repr

/-- BmsData::default() — `derive Default` gives `None` in every field. -/
def bms_default : BmsData := {}

/-- Little-endian decoding of two bytes, as `u16::from_le_bytes([b0, b1])`. -/
def u16_from_le_bytes (b0 b1 : Nat) : Nat := b0 + 256 * b1

/-- BmsData::update_from_frame (src/data.rs lines 51-108).  The Rust method
mutates `self` behind `&mut` and returns `Result<(), AppError>`; here it
returns the outcome together with the record it leaves behind.  On every error
path the record is returned untouched, exactly as in the source, where the
length check precedes every field assignment.  The payload is a byte list
(`data.getD i 0` is `data[i]`, only ever used under the length-8 check). -/
def update_from_frame (d : BmsData) (can_id : Nat) (data : List Nat) :
    Except AppError Unit × BmsData :=
  if can_id = 0xB101 ∨ can_id = 0xB102 then
    if data.length ≠ 8 then
      (.error (.InvalidCanDataLength can_id 8 data.length), d)
    else
      (.ok (), { d with
        min_cell_voltage := some (u16_from_le_bytes (data.getD 0 0) (data.getD 1 0)),
        max_cell_voltage := some (u16_from_le_bytes (data.getD 2 0) (data.getD 3 0)),
        min_temperature := some (data.getD 4 0),
        max_temperature := some (data.getD 5 0),
        info := some (data.getD 6 0),
        soc := some (data.getD 7 0) })
  else if can_id = 0xB201 ∨ can_id = 0xB202 then
    if data.length ≠ 8 then
      (.error (.InvalidCanDataLength can_id 8 data.length), d)
    else
      (.ok (), { d with
        current := some (u16_from_le_bytes (data.getD 0 0) (data.getD 1 0)),
        total_voltage := some (u16_from_le_bytes (data.getD 2 0) (data.getD 3 0)),
        warning1 := some (data.getD 4 0),
        warning2 := some (data.getD 5 0),
        error1 := some (data.getD 6 0),
        error2 := some (data.getD 7 0) })
  else
    (.error (.UnsupportedCanId can_id), d)

/-- BmsData::get_register (src/data.rs lines 111-130).  Note that the source
maps `REG_ERROR_1` and `REG_ERROR_2` to `self.info` (with the 0xFF default),
exactly like `REG_BMS_INFO` — not to `self.error1` / `self.error2`. -/
def get_register (d : BmsData) (address : Nat) : Option Nat :=
  if address = REG_MIN_CELL_VOLTAGE then d.min_cell_voltage
  else if address = REG_MAX_CELL_VOLTAGE then d.max_cell_voltage
  else if address = REG_MIN_TEMPERATURE then d.min_temperature
  else if address = REG_MAX_TEMPERATURE then d.max_temperature
  else if address = REG_BMS_INFO then some (d.info.getD 0xFF)
  else if address = REG_SOC then d.soc
  else if address = REG_CURRENT then d.current
  else if address = REG_TOTAL_VOLTAGE then d.total_voltage
  else if address = REG_WARNING_1 then d.warning1
  else if address = REG_WARNING_2 then d.warning2
  else if address = REG_ERROR_1 then some (d.info.getD 0xFF)
  else if address = REG_ERROR_2 then some (d.info.getD 0xFF)
  else if address = REG_ON then d.«on»
  else if address = REG_QUIT then d.quit
  else none

/-- BmsData::set_register (src/data.rs lines 133-187), state-passing like
`update_from_frame`.  `u8::try_from(value)` succeeds exactly when
`value ≤ 255`. -/
def set_register (d : BmsData) (address value : Nat) :
    Except ExceptionCode Unit × BmsData :=
  if address = REG_ON then
    if value ≤ 255 then (.ok (), { d with «on» := some value })
    else (.error .IllegalDataValue, d)
  else if address = REG_QUIT then
    if value ≤ 255 then (.ok (), { d with quit := some value })
    else (.error .IllegalDataValue, d)
  else if address = REG_MIN_CELL_VOLTAGE ∨ address = REG_MAX_CELL_VOLTAGE
      ∨ address = REG_MIN_TEMPERATURE ∨ address = REG_MAX_TEMPERATURE
      ∨ address = REG_BMS_INFO ∨ address = REG_SOC ∨ address = REG_CURRENT
      ∨ address = REG_TOTAL_VOLTAGE ∨ address = REG_WARNING_1
      ∨ address = REG_WARNING_2 ∨ address = REG_ERROR_1 ∨ address = REG_ERROR_2 then
    (.error .IllegalFunction, d)
  else
    (.error .IllegalDataAddress, d)

example :
    (update_from_frame bms_default 0xB101 [0x34, 0x12, 0x78, 0x56, 5, 6, 7, 8]).2.min_cell_voltage
      = some 0x1234 := by decide

example : get_register (update_from_frame bms_default 0xB201 [0, 0, 0, 0, 0, 0, 1, 0]).2 11
    = some 0xFF := by decide

example : (set_register bms_default 21 300).1 = .error .IllegalDataValue := by decide

/-! CAN ingestion, src/can.rs lines 32-66.  One iteration of `rx_task`'s loop
on a received frame: the store (an `Option BmsData` behind the lock) is
populated with `BmsData::default` if still `None` (`get_or_insert_with`), then
`update_from_frame` runs; on success, for a type-2 identifier the task sends a
fault signal on `error_tx` when payload byte 6 or byte 7 is non-zero.  The
returned `Bool` records whether a fault signal was sent. -/
def rx_step (st : Option BmsData) (can_id : Nat) (data : List Nat) :
    Option BmsData × Bool :=
  let d := st.getD bms_default
  match update_from_frame d can_id data with
  | (.error _, d1) => (some d1, false)
  | (.ok (), d1) =>
      if (can_id = 0xB201 ∨ can_id = 0xB202)
          ∧ (data.getD 6 0 ≠ 0 ∨ data.getD 7 0 ≠ 0) then
        (some d1, true)
      else
        (some d1, false)

/-! Command router, src/main.rs lines 23-125. -/

/-- The debounce window of `reset_control_frozen`
(`std::thread::sleep(Duration::from_secs(1))`), in seconds. -/
def DEBOUNCE_WINDOW_SECS : Nat := 1

/-- reset_control_frozen (src/main.rs lines 23-43), acting on the two units'
stores: `get_or_insert_default` then `control_frozen = Some(false)` on each. -/
def reset_control_frozen (s1 s2 : Option BmsData) :
    Option BmsData × Option BmsData :=
  (some { s1.getD bms_default with control_frozen := some false },
   some { s2.getD bms_default with control_frozen := some false })

/-- The flag read of input_flag_manager_task (src/main.rs lines 53-91): on a
`None` store the task logs a warning and uses `false`; on a `Some` store it
does `data.control_frozen.unwrap()`, which panics when the field is `None` —
modelled as `none`. -/
def read_control_frozen (st : Option BmsData) : Option Bool :=
  match st with
  | none => some false
  | some d => d.control_frozen

/-- Outcome of one iteration of input_flag_manager_task for one received
command. -/
structure RouterStep where
  store1 : Option BmsData
  store2 : Option BmsData
  forwarded : List SystemCommand
  scheduled_unfreeze : Bool
  deriving DecidableEq, Repr

/-- One iteration of input_flag_manager_task's `for msg in input_rx.iter()`
body (src/main.rs lines 52-122).  Reads both units' `control_frozen`; when
both read `false` it sets both flags to `true` (`get_or_insert_default` then
assignment), spawns the `reset_control_frozen` background thread, and sends
the command on `output_tx`; otherwise it does nothing.  The overall `none`
models the `unwrap()` panic on an unset flag. -/
def input_flag_manager_step (s1 s2 : Option BmsData) (msg : SystemCommand) :
    Option RouterStep :=
  match read_control_frozen s1, read_control_frozen s2 with
  | some control_frozen1, some control_frozen2 =>
      if ¬ (control_frozen1 || control_frozen2) then
        some { store1 := some { s1.getD bms_default with control_frozen := some true }
             , store2 := some { s2.getD bms_default with control_frozen := some true }
             , forwarded := [msg]
             , scheduled_unfreeze := true }
      else
        some { store1 := s1, store2 := s2, forwarded := [], scheduled_unfreeze := false }
  | _, _ => none

/-! Channel wiring, src/main.rs lines 170-256.

`crossbeam_channel::unbounded` is a multi-producer multi-consumer FIFO queue:
cloning a `Receiver` yields another handle on the *same* queue, and every
message is received by exactly one `recv` call, whichever handle performs it.
It is not a broadcast channel.  The model below is this queue semantics; which
task holds which (cloned) handle is recorded by the wiring lists. -/

/-- State of one crossbeam channel: the queue of undelivered messages. -/
structure CrossbeamChannel (α : Type) where
  queue : List α
  deriving DecidableEq, Repr

/-- Sending appends to the single shared queue. -/
def channel_send {α : Type} (c : CrossbeamChannel α) (a : α) : CrossbeamChannel α :=
  { queue := c.queue ++ [a] }

/-- A `recv` by any receiver handle removes the front message; `none` when the
queue is empty (the caller would block). -/
def channel_recv {α : Type} (c : CrossbeamChannel α) : Option α × CrossbeamChannel α :=
  match c.queue with
  | [] => (none, c)
  | a :: rest => (some a, { queue := rest })

/-- The tasks that hold receiver handles in main.rs. -/
inductive ConsumerTask where
  | inverterClient1
  | inverterClient2
  | canTx
  | gpioOutput
  deriving DecidableEq, Repr

/-- Receiver handles of the single fault channel `(error_tx1, error_rx1)`
(src/main.rs lines 178-181, 226-247): `error_rx1` goes to inverter client 1,
its clone `error_rx2` to inverter client 2, its clone `error_rx3` to the GPIO
output task.  Both CAN rx tasks send into this same channel (`error_tx1` and
its clone `error_tx2`). -/
def fault_channel_receiver_holders : List ConsumerTask :=
  [.inverterClient1, .inverterClient2, .gpioOutput]

/-- Receiver handles of the single command output channel
`(output_tx, output_rx1)` (src/main.rs lines 184-187, 226-247): `output_rx1`
to inverter client 1, clone `output_rx2` to inverter client 2, clone
`output_rx3` to the CAN tx task, clone `output_rx4` to the GPIO output
task. -/
def output_channel_receiver_holders : List ConsumerTask :=
  [.inverterClient1, .inverterClient2, .canTx, .gpioOutput]

/-- Run a sequence of `recv` calls, one per listed task (in the order the
scheduler happens to run them), against one shared channel; record what each
task received. -/
def run_recvs {α : Type} (c : CrossbeamChannel α) :
    List ConsumerTask → List (ConsumerTask × Option α)
  | [] => []
  | t :: ts =>
      let (msg, c1) := channel_recv c
      (t, msg) :: run_recvs c1 ts

/-! Modbus inverter client, src/modbus_client.rs. -/

def INVERTER_REG_MODE : Nat := 40231
def INVERTER_REG_UNKNOWN1 : Nat := 40191
def INVERTER_REG_UNKNOWN2 : Nat := 40187
def INVERTER_OFF_MODE_VALUE : Nat := 3
def INVERTER_OFF_UNKNOWN1_VALUE : Nat := 0
def INVERTER_OFF_UNKNOWN2_VALUE : Nat := 0

/-- The `writes` array of execute_inverter_off_sequence
(src/modbus_client.rs lines 32-36). -/
def off_sequence_writes : List (Nat × Nat) :=
  [(INVERTER_REG_MODE, INVERTER_OFF_MODE_VALUE),
   (INVERTER_REG_UNKNOWN1, INVERTER_OFF_UNKNOWN1_VALUE),
   (INVERTER_REG_UNKNOWN2, INVERTER_OFF_UNKNOWN2_VALUE)]

/-- Observable actions of the Modbus client on its connection. -/
inductive ClientEvent where
  | writeSingleRegister (reg val : Nat)
  | sleepMs (ms : Nat)
  deriving DecidableEq, Repr

/-- The loop body of execute_inverter_off_sequence (src/modbus_client.rs lines
38-47): for each `(reg, val)` in order, `write_single_register` then
`sleep(50ms)`.  The device's accept/reject answer to each write is an oracle
`ok reg val`; the `?` on the write aborts the remaining iterations (the failed
write was still issued, and no sleep follows it).  Returns the trace of issued
actions and whether the whole sequence succeeded. -/
def run_off_writes (ok : Nat → Nat → Bool) :
    List (Nat × Nat) → List ClientEvent × Bool
  | [] => ([], true)
  | (reg, val) :: rest =>
      if ok reg val then
        let (tr, res) := run_off_writes ok rest
        (.writeSingleRegister reg val :: .sleepMs 50 :: tr, res)
      else
        ([.writeSingleRegister reg val], false)

/-- execute_inverter_off_sequence (src/modbus_client.rs lines 24-54). -/
def execute_inverter_off_sequence (ok : Nat → Nat → Bool) :
    List ClientEvent × Bool :=
  run_off_writes ok off_sequence_writes

/-- Connection states of the client task's reconnect state machine. -/
inductive ClientState where
  | Connected
  | Disconnected
  deriving DecidableEq, Repr

/-- The `SystemCommand::Off` branch of the client task's select loop
(src/modbus_client.rs lines 106-114): run the OFF sequence; on failure
`break 'inner`, leaving the connected loop so the outer loop reconnects. -/
def client_off_command_step (ok : Nat → Nat → Bool) :
    ClientState × List ClientEvent :=
  let (tr, res) := execute_inverter_off_sequence ok
  (if res then .Connected else .Disconnected, tr)

/-- The writes a trace contains, in order. -/
def writes_of (tr : List ClientEvent) : List (Nat × Nat) :=
  tr.filterMap fun e =>
    match e with
    | .writeSingleRegister reg val => some (reg, val)
    | .sleepMs _ => none

/-! Modbus register server, src/modbus_server.rs. -/

/-- The Modbus requests the service matches on (tokio_modbus `Request`);
`Other` stands for every unsupported function code. -/
inductive Request where
  | ReadHoldingRegisters (addr cnt : Nat)
  | ReadInputRegisters (addr cnt : Nat)
  | WriteSingleRegister (addr value : Nat)
  | WriteMultipleRegisters (addr : Nat) (values : List Nat)
  | Other
  deriving DecidableEq, Repr

/-- The responses the service produces. -/
inductive Response where
  | ReadHoldingRegisters (values : List Nat)
  | ReadInputRegisters (values : List Nat)
  | WriteSingleRegister (addr value : Nat)
  | WriteMultipleRegisters (addr cnt : Nat)
  deriving DecidableEq, Repr

/-- The register block read loop (src/modbus_server.rs lines 52-59): for
`i in 0..cnt`, `get_register(addr + i)` defaulting to 0.  `addr + i` is `u16`
arithmetic, taken mod 65536. -/
def read_registers_block (d : BmsData) (addr cnt : Nat) : List Nat :=
  (List.range cnt).map fun i => (get_register d ((addr + i) % 65536)).getD 0

/-- The WriteMultipleRegisters loop (src/modbus_server.rs lines 147-159): for
`(i, value)` in order, `set_register(addr + i, value)`; the first rejection
returns that exception, with every earlier write already applied and kept. -/
def write_multiple_loop (d : BmsData) (addr i : Nat) :
    List Nat → Except ExceptionCode Unit × BmsData
  | [] => (.ok (), d)
  | v :: rest =>
      match set_register d ((addr + i) % 65536) v with
      | (.ok (), d1) => write_multiple_loop d1 addr (i + 1) rest
      | (.error e, d1) => (.error e, d1)

/-- BmsModbusService::call (src/modbus_server.rs lines 33-171), on the store
of one unit.  Every mutating branch first does
`get_or_insert_with(BmsData::default)`, so the store is `some` afterwards even
when the write is rejected.  Reads on an uninitialized (`none`) store answer
all zeros.  Note the service has no channel: no branch produces a
`SystemCommand`, its only outputs are the Modbus response and the store. -/
def bms_modbus_service_call (req : Request) (st : Option BmsData) :
    Except ExceptionCode Response × Option BmsData :=
  match req with
  | .ReadHoldingRegisters addr cnt =>
      match st with
      | some d => (.ok (.ReadHoldingRegisters (read_registers_block d addr cnt)), st)
      | none => (.ok (.ReadHoldingRegisters (List.replicate cnt 0)), st)
  | .ReadInputRegisters addr cnt =>
      match st with
      | some d => (.ok (.ReadInputRegisters (read_registers_block d addr cnt)), st)
      | none => (.ok (.ReadInputRegisters (List.replicate cnt 0)), st)
  | .WriteSingleRegister addr value =>
      let d := st.getD bms_default
      match set_register d addr value with
      | (.ok (), d1) => (.ok (.WriteSingleRegister addr value), some d1)
      | (.error e, d1) => (.error e, some d1)
  | .WriteMultipleRegisters addr values =>
      let d := st.getD bms_default
      match write_multiple_loop d addr 0 values with
      | (.ok (), d1) => (.ok (.WriteMultipleRegisters addr values.length), some d1)
      | (.error e, d1) => (.error e, some d1)
  | .Other => (.error .IllegalFunction, st)

example :
    bms_modbus_service_call (.WriteMultipleRegisters 21 [1, 2, 3]) (some bms_default)
      = (.error .IllegalDataAddress,
         some { bms_default with «on» := some 1, quit := some 2 }) := by decide

/-- Reference fold for WriteMultipleRegisters: apply `set_register` to
consecutive addresses in increasing order, keeping whatever state each write
leaves (a rejected write leaves the record unchanged). -/
def apply_writes (d : BmsData) (addr i : Nat) : List Nat → BmsData
  | [] => d
  | v :: rest => apply_writes (set_register d ((addr + i) % 65536) v).2 addr (i + 1) rest

/-- Whether every write of the list, applied at consecutive addresses, is
accepted. -/
def all_writes_ok (d : BmsData) (addr i : Nat) : List Nat → Bool
  | [] => true
  | v :: rest =>
      match set_register d ((addr + i) % 65536) v with
      | (.ok (), d1) => all_writes_ok d1 addr (i + 1) rest
      | (.error _, _) => false

/-- A rejected `set_register` leaves the record unchanged. -/
theorem set_register_error_unchanged (d : BmsData) (a v : Nat) (e : ExceptionCode)
    (h : (set_register d a v).1 = .error e) : (set_register d a v).2 = d := by
  unfold set_register at h ⊢
  split_ifs at h ⊢ <;> simp_all

/-- Unfolding of `write_multiple_loop` on a cons whose head write succeeds. -/
theorem write_multiple_loop_cons_ok (d d1 : BmsData) (addr i v : Nat) (rest : List Nat)
    (h : set_register d ((addr + i) % 65536) v = (.ok (), d1)) :
    write_multiple_loop d addr i (v :: rest) = write_multiple_loop d1 addr (i + 1) rest := by
  have hdef : write_multiple_loop d addr i (v :: rest)
      = match set_register d ((addr + i) % 65536) v with
        | (.ok (), d2) => write_multiple_loop d2 addr (i + 1) rest
        | (.error e, d2) => (.error e, d2) := rfl
  rw [hdef, h]

/-- Unfolding of `write_multiple_loop` on a cons whose head write is
rejected. -/
theorem write_multiple_loop_cons_error (d d1 : BmsData) (e : ExceptionCode)
    (addr i v : Nat) (rest : List Nat)
    (h : set_register d ((addr + i) % 65536) v = (.error e, d1)) :
    write_multiple_loop d addr i (v :: rest) = (.error e, d1) := by
  have hdef : write_multiple_loop d addr i (v :: rest)
      = match set_register d ((addr + i) % 65536) v with
        | (.ok (), d2) => write_multiple_loop d2 addr (i + 1) rest
        | (.error e, d2) => (.error e, d2) := rfl
  rw [hdef, h]

/-- Unfolding of `apply_writes` on a cons. -/
theorem apply_writes_cons (d : BmsData) (addr i v : Nat) (rest : List Nat) :
    apply_writes d addr i (v :: rest)
      = apply_writes (set_register d ((addr + i) % 65536) v).2 addr (i + 1) rest := rfl

/-- Unfolding of `all_writes_ok` on a cons whose head write succeeds. -/
theorem all_writes_ok_cons_ok (d d1 : BmsData) (addr i v : Nat) (rest : List Nat)
    (h : set_register d ((addr + i) % 65536) v = (.ok (), d1)) :
    all_writes_ok d addr i (v :: rest) = all_writes_ok d1 addr (i + 1) rest := by
  have hdef : all_writes_ok d addr i (v :: rest)
      = match set_register d ((addr + i) % 65536) v with
        | (.ok (), d2) => all_writes_ok d2 addr (i + 1) rest
        | (.error _, _) => false := rfl
  rw [hdef, h]

/-- Decomposition of the WriteMultipleRegisters loop: the processed list
splits into an accepted prefix — every one of whose writes succeeded and was
applied at consecutive increasing addresses — and the unprocessed rest; the
loop succeeds when the rest is empty, and otherwise its first value is exactly
the write the loop's exception came from, with everything before it still
applied. -/
theorem write_multiple_loop_spec (addr : Nat) :
    ∀ (values : List Nat) (d : BmsData) (i : Nat),
      ∃ pre post, values = pre ++ post
        ∧ all_writes_ok d addr i pre = true
        ∧ (write_multiple_loop d addr i values).2 = apply_writes d addr i pre
        ∧ (post = [] → (write_multiple_loop d addr i values).1 = .ok ())
        ∧ (∀ v rest, post = v :: rest →
            ∃ e, (write_multiple_loop d addr i values).1 = .error e
              ∧ set_register (apply_writes d addr i pre) ((addr + i + pre.length) % 65536) v
                  = (.error e, apply_writes d addr i pre)) := by
  intro values
  induction values with
  | nil =>
      intro d i
      refine ⟨[], [], rfl, rfl, rfl, fun _ => rfl, ?_⟩
      intro v rest hc
      cases hc
  | cons v rest ih =>
      intro d i
      rcases hsr : set_register d ((addr + i) % 65536) v with ⟨r, d1⟩
      cases r with
      | ok u =>
          cases u
          obtain ⟨pre, post, hsplit, hok, hstate, hnil, hcons⟩ := ih d1 (i + 1)
          have hloop := write_multiple_loop_cons_ok d d1 addr i v rest hsr
          have happ : ∀ l, apply_writes d addr i (v :: l) = apply_writes d1 addr (i + 1) l := by
            intro l
            rw [apply_writes_cons, hsr]
          refine ⟨v :: pre, post, by rw [hsplit]; rfl, ?_, ?_, ?_, ?_⟩
          · rw [all_writes_ok_cons_ok d d1 addr i v pre hsr]
            exact hok
          · rw [hloop, happ]
            exact hstate
          · intro h
            rw [hloop]
            exact hnil h
          · intro v1 rest1 h
            obtain ⟨e, he1, he2⟩ := hcons v1 rest1 h
            refine ⟨e, by rw [hloop]; exact he1, ?_⟩
            have hidx : addr + i + (v :: pre).length = addr + (i + 1) + pre.length := by
              simp only [List.length_cons]
              omega
            rw [happ, hidx]
            exact he2
      | error e =>
          have hd1 : d1 = d := by
            have h1 : (set_register d ((addr + i) % 65536) v).1 = .error e := by
              rw [hsr]
            have h2 := set_register_error_unchanged d ((addr + i) % 65536) v e h1
            rw [hsr] at h2
            exact h2
          have hloop := write_multiple_loop_cons_error d d1 e addr i v rest hsr
          have happ0 : apply_writes d addr i ([] : List Nat) = d := rfl
          refine ⟨[], v :: rest, rfl, rfl, ?_, ?_, ?_⟩
          · rw [hloop, happ0]
            exact hd1
          · intro h
            cases h
          · intro v1 rest1 h
            injection h with h1 h2
            subst h1
            subst h2
            refine ⟨e, by rw [hloop], ?_⟩
            have hidx : addr + i + ([] : List Nat).length = addr + i := by simp
            rw [hidx, happ0, hsr, hd1]

/-! Claim theorems. -/

/-- C1: the claim asserts that after a valid type-2 frame, register address 11
returns payload byte 6 (error1) and address 12 returns byte 7 (error2).  The
code stores byte 6 into `error1` and byte 7 into `error2`, but `get_register`
maps addresses 11 and 12 to the `info` field (with default 0xFF), never to
`error1`/`error2`: on a fresh store, after the type-2 frame
`0xB201 [0,0,0,0,0,0,1,0]`, address 11 reads 0xFF instead of the encoded 1.
(The type-1 mapping and type-2 addresses 6, 7, 9, 10 behave as claimed.) -/
theorem c1_error_registers_alias_info :
    (update_from_frame bms_default 0xB201 [0, 0, 0, 0, 0, 0, 1, 0]).1 = .ok ()
    ∧ (update_from_frame bms_default 0xB201 [0, 0, 0, 0, 0, 0, 1, 0]).2.error1 = some 1
    ∧ (update_from_frame bms_default 0xB201 [0, 0, 0, 0, 0, 0, 1, 0]).2.error2 = some 0
    ∧ get_register (update_from_frame bms_default 0xB201 [0, 0, 0, 0, 0, 0, 1, 0]).2 11
        = some 0xFF
    ∧ get_register (update_from_frame bms_default 0xB201 [0, 0, 0, 0, 0, 0, 1, 0]).2 12
        = some 0xFF := by
  decide

/-- C2: main.rs wires one crossbeam queue (not a broadcast channel) for fault
signals — with receiver clones held by inverter client 1, inverter client 2
and the GPIO output task — and one crossbeam queue for routed commands with
receiver clones held by all four output tasks.  Receiver clones compete: after
unit 1's CAN task sends a single fault signal, a schedule in which inverter
client 2 polls first consumes it, and the paired inverter client 1 and the
indicator task receive nothing; likewise a single routed command is consumed
by exactly one of the four broadcast consumers. -/
theorem c2_channels_compete_not_broadcast :
    fault_channel_receiver_holders = [.inverterClient1, .inverterClient2, .gpioOutput]
    ∧ run_recvs (channel_send { queue := [] } ())
        [.inverterClient2, .inverterClient1, .gpioOutput]
        = [(.inverterClient2, some ()), (.inverterClient1, none), (.gpioOutput, none)]
    ∧ output_channel_receiver_holders
        = [.inverterClient1, .inverterClient2, .canTx, .gpioOutput]
    ∧ run_recvs (channel_send { queue := [] } SystemCommand.Off)
        output_channel_receiver_holders
        = [(.inverterClient1, some .Off), (.inverterClient2, none),
           (.canTx, none), (.gpioOutput, none)] := by
  decide

/-- C3: one `rx_task` loop iteration sends a fault signal exactly when the
frame is type 2 (id 0xB201/0xB202), its 8-byte payload decodes successfully,
and byte 6 (error1) or byte 7 (error2) is non-zero; never for type-1 frames or
failed decodes. -/
theorem c3_fault_signal_iff (st : Option BmsData) (can_id : Nat) (data : List Nat) :
    (rx_step st can_id data).2 = true ↔
      (can_id = 0xB201 ∨ can_id = 0xB202) ∧ data.length = 8
        ∧ (data.getD 6 0 ≠ 0 ∨ data.getD 7 0 ≠ 0) := by
  have hne1 : (0xB201 : Nat) ≠ 0xB101 := by decide
  have hne2 : (0xB201 : Nat) ≠ 0xB102 := by decide
  have hne3 : (0xB202 : Nat) ≠ 0xB101 := by decide
  have hne4 : (0xB202 : Nat) ≠ 0xB102 := by decide
  by_cases h1 : can_id = 0xB101 ∨ can_id = 0xB102
  · have h2 : ¬ (can_id = 0xB201 ∨ can_id = 0xB202) := by
      rcases h1 with h | h <;> subst h <;> simp
    by_cases hlen : data.length = 8 <;>
      simp [rx_step, update_from_frame, h1, h2, hlen]
  · by_cases h2 : can_id = 0xB201 ∨ can_id = 0xB202
    · by_cases hlen : data.length = 8
      · simp [rx_step, update_from_frame, h1, h2, hlen]
        split <;> simp_all
      · simp [rx_step, update_from_frame, h1, h2, hlen]
    · simp [rx_step, update_from_frame, h1, h2]

/-- C5: a write of `value` to address 21 or 22 with `value ≤ 255` succeeds and
stores the value, so reading the same address afterwards returns it; with
`value > 255` it fails with IllegalDataValue and leaves the record — in
particular the `on`/`quit` field — unchanged. -/
theorem c5_write_on_quit (d : BmsData) (value : Nat) (hv : value < 65536) :
    (value ≤ 255 →
      set_register d 21 value = (.ok (), { d with «on» := some value })
      ∧ get_register (set_register d 21 value).2 21 = some value
      ∧ set_register d 22 value = (.ok (), { d with quit := some value })
      ∧ get_register (set_register d 22 value).2 22 = some value)
    ∧ (255 < value →
      set_register d 21 value = (.error .IllegalDataValue, d)
      ∧ (set_register d 21 value).2.«on» = d.«on»
      ∧ set_register d 22 value = (.error .IllegalDataValue, d)
      ∧ (set_register d 22 value).2.quit = d.quit) := by
  constructor
  · intro h
    simp [set_register, get_register, REG_ON, REG_QUIT, REG_MIN_CELL_VOLTAGE,
      REG_MAX_CELL_VOLTAGE, REG_MIN_TEMPERATURE, REG_MAX_TEMPERATURE, REG_BMS_INFO,
      REG_SOC, REG_CURRENT, REG_TOTAL_VOLTAGE, REG_WARNING_1, REG_WARNING_2,
      REG_ERROR_1, REG_ERROR_2, h]
  · intro h
    have h' : ¬ value ≤ 255 := by omega
    simp [set_register, REG_ON, REG_QUIT, h']

/-- Witness for C5 at the claim's scenario: value 7 is accepted and read back,
value 300 is rejected with IllegalDataValue and leaves the store unchanged. -/
theorem c5_write_on_quit_witness :
    ((7 : Nat) < 65536 ∧ (7 : Nat) ≤ 255
      ∧ set_register bms_default 21 7 = (.ok (), { bms_default with «on» := some 7 })
      ∧ get_register (set_register bms_default 21 7).2 21 = some 7)
    ∧ ((300 : Nat) < 65536 ∧ (255 : Nat) < 300
      ∧ set_register bms_default 21 300 = (.error .IllegalDataValue, bms_default)) :=
  ⟨⟨by decide, by decide,
    ((c5_write_on_quit bms_default 7 (by decide)).1 (by decide)).1,
    ((c5_write_on_quit bms_default 7 (by decide)).1 (by decide)).2.1⟩,
   ⟨by decide, by decide,
    ((c5_write_on_quit bms_default 300 (by decide)).2 (by decide)).1⟩⟩

/-- C6: for every frame whose payload length is not 8, `update_from_frame`
fails and returns the record untouched (the length check precedes every field
assignment), and for the recognized identifier families the error is
`InvalidCanDataLength` with expected 8 and the actual length. -/
theorem c6_short_frame_rejected (d : BmsData) (can_id : Nat) (data : List Nat)
    (hlen : data.length ≠ 8) :
    (∃ e, (update_from_frame d can_id data).1 = .error e)
    ∧ (update_from_frame d can_id data).2 = d
    ∧ ((can_id = 0xB101 ∨ can_id = 0xB102 ∨ can_id = 0xB201 ∨ can_id = 0xB202) →
        (update_from_frame d can_id data).1
          = .error (.InvalidCanDataLength can_id 8 data.length)) := by
  by_cases h1 : can_id = 0xB101 ∨ can_id = 0xB102
  · simp [update_from_frame, h1, hlen]
  · by_cases h2 : can_id = 0xB201 ∨ can_id = 0xB202
    · simp [update_from_frame, h1, h2, hlen]
    · unfold update_from_frame
      rw [if_neg h1, if_neg h2]
      refine ⟨⟨.UnsupportedCanId can_id, rfl⟩, rfl, ?_⟩
      intro h
      rcases h with h | h | h | h
      · exact absurd (Or.inl h) h1
      · exact absurd (Or.inr h) h1
      · exact absurd (Or.inl h) h2
      · exact absurd (Or.inr h) h2

/-- Witness for C6 at a 3-byte frame on a recognized identifier. -/
theorem c6_short_frame_rejected_witness :
    ([1, 2, 3] : List Nat).length ≠ 8
    ∧ ((∃ e, (update_from_frame bms_default 0xB101 [1, 2, 3]).1 = .error e)
      ∧ (update_from_frame bms_default 0xB101 [1, 2, 3]).2 = bms_default
      ∧ ((0xB101 : Nat) = 0xB101 ∨ (0xB101 : Nat) = 0xB102
          ∨ (0xB101 : Nat) = 0xB201 ∨ (0xB101 : Nat) = 0xB202 →
        (update_from_frame bms_default 0xB101 [1, 2, 3]).1
          = .error (.InvalidCanDataLength 0xB101 8 3))) :=
  ⟨by decide, c6_short_frame_rejected bms_default 0xB101 [1, 2, 3] (by decide)⟩

/-- C8: the register server's handler accepts an in-range WriteSingleRegister
to address 21, stores the value and echoes address/value — but that is all it
does: `BmsModbusService::call` in src/modbus_server.rs has no command channel
and no branch of it produces a `SystemCommand` (its outputs are only the
Modbus response and the store), even though main.rs passes `input_tx2` /
`input_tx3` to `modbus_server::task`. -/
theorem c8_accepted_write_stores_and_echoes_only :
    bms_modbus_service_call (.WriteSingleRegister 21 1) (some bms_default)
      = (.ok (.WriteSingleRegister 21 1), some { bms_default with «on» := some 1 })
    ∧ get_register
        ((bms_modbus_service_call (.WriteSingleRegister 21 1) (some bms_default)).2.getD
          bms_default) 21 = some 1 := by
  decide

/-- C9: writing any value to a read-only telemetry address 1–12 fails with
IllegalFunction, writing to any address outside 1–12 and 21–22 fails with
IllegalDataAddress, and in both cases the record is returned untouched. -/
theorem c9_rejected_writes (d : BmsData) (address value : Nat) :
    (1 ≤ address ∧ address ≤ 12 →
      set_register d address value = (.error .IllegalFunction, d))
    ∧ (¬ (1 ≤ address ∧ address ≤ 12) → address ≠ 21 → address ≠ 22 →
      set_register d address value = (.error .IllegalDataAddress, d)) := by
  constructor
  · rintro ⟨hlo, hhi⟩
    interval_cases address <;>
      simp [set_register, REG_ON, REG_QUIT, REG_MIN_CELL_VOLTAGE, REG_MAX_CELL_VOLTAGE,
        REG_MIN_TEMPERATURE, REG_MAX_TEMPERATURE, REG_BMS_INFO, REG_SOC, REG_CURRENT,
        REG_TOTAL_VOLTAGE, REG_WARNING_1, REG_WARNING_2, REG_ERROR_1, REG_ERROR_2]
  · intro hrange h21 h22
    simp only [set_register, REG_ON, REG_QUIT, REG_MIN_CELL_VOLTAGE, REG_MAX_CELL_VOLTAGE,
      REG_MIN_TEMPERATURE, REG_MAX_TEMPERATURE, REG_BMS_INFO, REG_SOC, REG_CURRENT,
      REG_TOTAL_VOLTAGE, REG_WARNING_1, REG_WARNING_2, REG_ERROR_1, REG_ERROR_2]
    rw [if_neg h21, if_neg h22, if_neg]
    intro hc
    rcases hc with h | h | h | h | h | h | h | h | h | h | h | h <;> omega

/-- C4: one command handled by the router with both flag reads defined: when
both read false, the router sets both units' `control_frozen` true, forwards
the command exactly once, and spawns the unfreeze action, which sleeps for the
1-second debounce window and then sets both flags back to false; when either
flag reads true, the command is dropped — nothing forwarded, stores untouched,
no unfreeze scheduled. -/
theorem c4_router_freeze_debounce (s1 s2 : Option BmsData) (msg : SystemCommand)
    (f1 f2 : Bool)
    (h1 : read_control_frozen s1 = some f1)
    (h2 : read_control_frozen s2 = some f2) :
    (f1 = false ∧ f2 = false →
      input_flag_manager_step s1 s2 msg
        = some { store1 := some { s1.getD bms_default with control_frozen := some true }
               , store2 := some { s2.getD bms_default with control_frozen := some true }
               , forwarded := [msg]
               , scheduled_unfreeze := true }
      ∧ DEBOUNCE_WINDOW_SECS = 1
      ∧ (∀ t1 t2 : Option BmsData,
          read_control_frozen (reset_control_frozen t1 t2).1 = some false
          ∧ read_control_frozen (reset_control_frozen t1 t2).2 = some false))
    ∧ (f1 = true ∨ f2 = true →
      input_flag_manager_step s1 s2 msg
        = some { store1 := s1, store2 := s2, forwarded := []
               , scheduled_unfreeze := false }) := by
  constructor
  · rintro ⟨e1, e2⟩
    subst e1; subst e2
    refine ⟨?_, rfl, ?_⟩
    · simp [input_flag_manager_step, h1, h2]
    · intro t1 t2
      simp [reset_control_frozen, read_control_frozen]
  · intro h
    have hf : (f1 || f2) = true := by rcases h with h | h <;> simp [h]
    simp [input_flag_manager_step, h1, h2, hf]

/-- Witness for C4: both stores initialized with `control_frozen = Some(false)`
(as in main.rs) and an Off command; the idle branch fires. -/
theorem c4_router_freeze_debounce_witness :
    read_control_frozen (some { bms_default with control_frozen := some false })
        = some false
    ∧ (input_flag_manager_step
          (some { bms_default with control_frozen := some false })
          (some { bms_default with control_frozen := some false }) .Off
        = some { store1 := some { bms_default with control_frozen := some true }
               , store2 := some { bms_default with control_frozen := some true }
               , forwarded := [SystemCommand.Off]
               , scheduled_unfreeze := true }
      ∧ DEBOUNCE_WINDOW_SECS = 1
      ∧ (∀ t1 t2 : Option BmsData,
          read_control_frozen (reset_control_frozen t1 t2).1 = some false
          ∧ read_control_frozen (reset_control_frozen t1 t2).2 = some false)) := by
  refine ⟨by decide, ?_⟩
  have h := (c4_router_freeze_debounce
    (some { bms_default with control_frozen := some false })
    (some { bms_default with control_frozen := some false }) .Off false false
    (by decide) (by decide)).1 ⟨rfl, rfl⟩
  simpa using h

/-- C7: when every write is accepted, the OFF sequence issues exactly the
three writes 40231←3, 40191←0, 40187←0 in that order, each followed by a
50 ms pause, and the client stays connected; when a write is rejected, the
writes after it are not attempted (the issued writes are exactly the first
k+1 planned ones, the first k accepted, the (k+1)-th rejected) and the client
leaves the connected loop to reconnect. -/
theorem c7_off_sequence (ok : Nat → Nat → Bool) :
    ((execute_inverter_off_sequence ok).2 = true →
      (execute_inverter_off_sequence ok).1
        = [.writeSingleRegister 40231 3, .sleepMs 50,
           .writeSingleRegister 40191 0, .sleepMs 50,
           .writeSingleRegister 40187 0, .sleepMs 50]
      ∧ (client_off_command_step ok).1 = .Connected)
    ∧ ((execute_inverter_off_sequence ok).2 = false →
      (∃ k, k < 3
        ∧ writes_of (execute_inverter_off_sequence ok).1
            = off_sequence_writes.take (k + 1)
        ∧ (∀ j, j < k →
            ok (off_sequence_writes.getD j (0, 0)).1
               (off_sequence_writes.getD j (0, 0)).2 = true)
        ∧ ok (off_sequence_writes.getD k (0, 0)).1
             (off_sequence_writes.getD k (0, 0)).2 = false)
      ∧ (client_off_command_step ok).1 = .Disconnected) := by
  by_cases h1 : ok 40231 3 = false
  · have hseq : execute_inverter_off_sequence ok
        = ([.writeSingleRegister 40231 3], false) := by
      simp [execute_inverter_off_sequence, off_sequence_writes, run_off_writes,
        INVERTER_REG_MODE, INVERTER_OFF_MODE_VALUE, INVERTER_REG_UNKNOWN1,
        INVERTER_OFF_UNKNOWN1_VALUE, INVERTER_REG_UNKNOWN2,
        INVERTER_OFF_UNKNOWN2_VALUE, h1]
    refine ⟨fun h => ?_, fun _ => ⟨⟨0, by decide, ?_, ?_, ?_⟩, ?_⟩⟩
    · rw [hseq] at h; cases h
    · rw [hseq]; decide
    · intro j hj; omega
    · simpa [off_sequence_writes, INVERTER_REG_MODE, INVERTER_OFF_MODE_VALUE] using h1
    · simp [client_off_command_step, hseq]
  · have h1t : ok 40231 3 = true := by revert h1; cases ok 40231 3 <;> simp
    by_cases h2 : ok 40191 0 = false
    · have hseq : execute_inverter_off_sequence ok
          = ([.writeSingleRegister 40231 3, .sleepMs 50,
              .writeSingleRegister 40191 0], false) := by
        simp [execute_inverter_off_sequence, off_sequence_writes, run_off_writes,
          INVERTER_REG_MODE, INVERTER_OFF_MODE_VALUE, INVERTER_REG_UNKNOWN1,
          INVERTER_OFF_UNKNOWN1_VALUE, INVERTER_REG_UNKNOWN2,
          INVERTER_OFF_UNKNOWN2_VALUE, h1t, h2]
      refine ⟨fun h => ?_, fun _ => ⟨⟨1, by decide, ?_, ?_, ?_⟩, ?_⟩⟩
      · rw [hseq] at h; cases h
      · rw [hseq]; decide
      · intro j hj
        interval_cases j
        simpa [off_sequence_writes, INVERTER_REG_MODE, INVERTER_OFF_MODE_VALUE]
          using h1t
      · simpa [off_sequence_writes, INVERTER_REG_UNKNOWN1,
          INVERTER_OFF_UNKNOWN1_VALUE] using h2
      · simp [client_off_command_step, hseq]
    · have h2t : ok 40191 0 = true := by revert h2; cases ok 40191 0 <;> simp
      by_cases h3 : ok 40187 0 = false
      · have hseq : execute_inverter_off_sequence ok
            = ([.writeSingleRegister 40231 3, .sleepMs 50,
                .writeSingleRegister 40191 0, .sleepMs 50,
                .writeSingleRegister 40187 0], false) := by
          simp [execute_inverter_off_sequence, off_sequence_writes, run_off_writes,
            INVERTER_REG_MODE, INVERTER_OFF_MODE_VALUE, INVERTER_REG_UNKNOWN1,
            INVERTER_OFF_UNKNOWN1_VALUE, INVERTER_REG_UNKNOWN2,
            INVERTER_OFF_UNKNOWN2_VALUE, h1t, h2t, h3]
        refine ⟨fun h => ?_, fun _ => ⟨⟨2, by decide, ?_, ?_, ?_⟩, ?_⟩⟩
        · rw [hseq] at h; cases h
        · rw [hseq]; decide
        · intro j hj
          interval_cases j
          · simpa [off_sequence_writes, INVERTER_REG_MODE,
              INVERTER_OFF_MODE_VALUE] using h1t
          · simpa [off_sequence_writes, INVERTER_REG_UNKNOWN1,
              INVERTER_OFF_UNKNOWN1_VALUE] using h2t
        · simpa [off_sequence_writes, INVERTER_REG_UNKNOWN2,
            INVERTER_OFF_UNKNOWN2_VALUE] using h3
        · simp [client_off_command_step, hseq]
      · have h3t : ok 40187 0 = true := by revert h3; cases ok 40187 0 <;> simp
        have hseq : execute_inverter_off_sequence ok
            = ([.writeSingleRegister 40231 3, .sleepMs 50,
                .writeSingleRegister 40191 0, .sleepMs 50,
                .writeSingleRegister 40187 0, .sleepMs 50], true) := by
          simp [execute_inverter_off_sequence, off_sequence_writes, run_off_writes,
            INVERTER_REG_MODE, INVERTER_OFF_MODE_VALUE, INVERTER_REG_UNKNOWN1,
            INVERTER_OFF_UNKNOWN1_VALUE, INVERTER_REG_UNKNOWN2,
            INVERTER_OFF_UNKNOWN2_VALUE, h1t, h2t, h3t]
        refine ⟨fun _ => ⟨by rw [hseq], ?_⟩, fun h => ?_⟩
        · simp [client_off_command_step, hseq]
        · rw [hseq] at h; cases h

/-- Witness for C7: an always-accepting device yields the full three-write
trace, an all-rejecting device aborts after the first write and disconnects
the client. -/
theorem c7_off_sequence_witness :
    ((execute_inverter_off_sequence (fun _ _ => true)).2 = true
      ∧ (execute_inverter_off_sequence (fun _ _ => true)).1
          = [.writeSingleRegister 40231 3, .sleepMs 50,
             .writeSingleRegister 40191 0, .sleepMs 50,
             .writeSingleRegister 40187 0, .sleepMs 50]
      ∧ (client_off_command_step (fun _ _ => true)).1 = .Connected)
    ∧ ((execute_inverter_off_sequence (fun _ _ => false)).2 = false
      ∧ (client_off_command_step (fun _ _ => false)).1 = .Disconnected) :=
  ⟨⟨by decide, (c7_off_sequence (fun _ _ => true)).1 (by decide)⟩,
   ⟨by decide, ((c7_off_sequence (fun _ _ => false)).2 (by decide)).2⟩⟩

/-- C10: a WriteMultipleRegisters request applies `set_register` at
consecutive increasing addresses; it answers with the first rejected write's
exception, and every write accepted before the rejection stays in the store
(no rollback) — in particular a request at address 21 with three in-range
values updates both `on` and `quit` and then fails with IllegalDataAddress at
address 23. -/
theorem c10_write_multiple_in_order_no_rollback (d : BmsData) (addr : Nat)
    (values : List Nat) :
    (∃ pre post, values = pre ++ post
      ∧ all_writes_ok d addr 0 pre = true
      ∧ (bms_modbus_service_call (.WriteMultipleRegisters addr values) (some d)).2
          = some (apply_writes d addr 0 pre)
      ∧ (post = [] →
          (bms_modbus_service_call (.WriteMultipleRegisters addr values) (some d)).1
            = .ok (.WriteMultipleRegisters addr values.length))
      ∧ (∀ v rest, post = v :: rest →
          ∃ e, (bms_modbus_service_call (.WriteMultipleRegisters addr values) (some d)).1
              = .error e
            ∧ set_register (apply_writes d addr 0 pre) ((addr + 0 + pre.length) % 65536) v
                = (.error e, apply_writes d addr 0 pre)))
    ∧ bms_modbus_service_call (.WriteMultipleRegisters 21 [1, 2, 3]) (some bms_default)
        = (.error .IllegalDataAddress,
           some { bms_default with «on» := some 1, quit := some 2 }) := by
  have hcall : bms_modbus_service_call (.WriteMultipleRegisters addr values) (some d)
      = match write_multiple_loop d addr 0 values with
        | (.ok (), d1) => (.ok (.WriteMultipleRegisters addr values.length), some d1)
        | (.error e, d1) => (.error e, some d1) := rfl
  refine ⟨?_, by decide⟩
  obtain ⟨pre, post, hsplit, hok, hstate, hnil, hcons⟩ :=
    write_multiple_loop_spec addr values d 0
  refine ⟨pre, post, hsplit, hok, ?_, ?_, ?_⟩
  · rw [hcall]
    rcases hw : write_multiple_loop d addr 0 values with ⟨r, d1⟩
    rw [hw] at hstate
    simp only at hstate
    cases r with
    | ok u =>
        cases u
        simpa using congrArg some hstate
    | error e =>
        simpa using congrArg some hstate
  · intro hpost
    have h1 := hnil hpost
    rw [hcall]
    rcases hw : write_multiple_loop d addr 0 values with ⟨r, d1⟩
    rw [hw] at h1
    simp only at h1
    cases r with
    | ok u =>
        cases u
        rfl
    | error e =>
        cases h1
  · intro v rest hpost
    obtain ⟨e, he1, he2⟩ := hcons v rest hpost
    refine ⟨e, ?_, he2⟩
    rw [hcall]
    rcases hw : write_multiple_loop d addr 0 values with ⟨r, d1⟩
    rw [hw] at he1
    simp only at he1
    cases r with
    | ok u =>
        cases u
        cases he1
    | error e2 =>
        have he : e2 = e := by
          injection he1
        subst he
        rfl

/-- Witness for C9: address 3 (read-only) and address 100 (undefined). -/
theorem c9_rejected_writes_witness :
    ((1 ≤ 3 ∧ 3 ≤ 12)
      ∧ set_register bms_default 3 5 = (.error .IllegalFunction, bms_default))
    ∧ (¬ (1 ≤ 100 ∧ (100 : Nat) ≤ 12) ∧ (100 : Nat) ≠ 21 ∧ (100 : Nat) ≠ 22
      ∧ set_register bms_default 100 5 = (.error .IllegalDataAddress, bms_default)) :=
  ⟨⟨by decide, (c9_rejected_writes bms_default 3 5).1 (by decide)⟩,
   ⟨by decide, by decide, by decide,
    (c9_rejected_writes bms_default 100 5).2 (by decide) (by decide) (by decide)⟩⟩

end Gateway
